import Mathlib

/-!
Shallow embedding of the staffing-assignment pipeline implemented in
`ea_assign_assistant.py` (function `call_ea_team_info_agent`), together with
proofs about its control flow: planner-reply parsing, fan-out dispatch to the
question-answering backend, response classification, answer extraction, and
the optional effort-update stage.
-/

namespace EAAssign

/-! ## Python string and JSON semantics helpers -/

/-- Characters stripped by Python `str.strip()` (ASCII whitespace). -/
def isPySpace (c : Char) : Bool :=
  c = ' ' || c = '\t' || c = '\n' || c = '\r' || c = '\x0b' || c = '\x0c'

/-- Python `str.strip()`: remove leading and trailing whitespace. -/
def pyStrip (s : String) : String :=
  String.mk (((s.data.dropWhile isPySpace).reverse.dropWhile isPySpace).reverse)

/-- Python `str.split('\n')` on the character list: split at every newline,
keeping empty pieces (so `""` yields `[""]`). -/
def splitNl : List Char → List (List Char)
  | [] => [[]]
  | c :: rest =>
    let r := splitNl rest
    if c = '\n' then [] :: r
    else
      match r with
      | [] => [[c]]
      | h :: t => (c :: h) :: t

/-- Python `text.split('\n')`. -/
def pySplitNl (s : String) : List String :=
  (splitNl s.data).map String.mk

/-- Leading-marker test on character lists. -/
def leadsWith : List Char → List Char → Bool
  | [], _ => true
  | _ :: _, [] => false
  | p :: ps, c :: cs => p = c && leadsWith ps cs

/-- Python `line.startswith(m)`. -/
def pyStartsWith (l m : String) : Bool :=
  leadsWith m.data l.data

/-- Python `s[n:]` for a non-negative `n`. -/
def pyDrop (s : String) (n : Nat) : String :=
  String.mk (s.data.drop n)

/-- Python truthiness of a string: non-empty. -/
def pyTruthyStr (s : String) : Bool :=
  !s.data.isEmpty

/-- Exceptions that Python raises in the code paths we model. -/
inductive PyErr where
  | indexError
  | attributeError
  | keyError
  | typeError
deriving DecidableEq, Repr

/-- JSON values, as produced by Python `response.json()`. -/
inductive Json where
  | null
  | bool (b : Bool)
  | num (n : Int)
  | str (s : String)
  | arr (elems : List Json)
  | obj (fields : List (String × Json))

/-- First binding of a key in a decoded JSON object (decoded dicts have unique keys). -/
def lookupField : List (String × Json) → String → Option Json
  | [], _ => none
  | (k, v) :: rest, key => if k = key then some v else lookupField rest key

/-- Python `x.get(key, default)`: defaults only when the key is absent;
raises `AttributeError` when `x` is not a dict. -/
def pyGet (j : Json) (key : String) (default : Json) : Except PyErr Json :=
  match j with
  | .obj fields =>
    match lookupField fields key with
    | some v => .ok v
    | none => .ok default
  | _ => .error .attributeError

/-- Python `x[0]`: `IndexError` on an empty list or string, `KeyError` on a
decoded dict (whose keys are strings), `TypeError` otherwise. -/
def pyIndex0 (j : Json) : Except PyErr Json :=
  match j with
  | .arr [] => .error .indexError
  | .arr (x :: _) => .ok x
  | .str s =>
    match s.data with
    | [] => .error .indexError
    | c :: _ => .ok (.str (String.mk [c]))
  | .obj _ => .error .keyError
  | _ => .error .typeError

/-- Python truthiness of a decoded JSON value. -/
def pyTruthy : Json → Bool
  | .null => false
  | .bool b => b
  | .num n => n != 0
  | .str s => pyTruthyStr s
  | .arr elems => !elems.isEmpty
  | .obj fields => !fields.isEmpty

/-! ## Planning stage: agent event loop and reply parsing (lines 250-292) -/

/-- One event of the agent runner's event stream, as consumed by the loop:
`author` is `event.author`, `isFinal` is `event.is_final_response()`, and
`contentParts` are the texts of `event.content.parts` (empty when the event
has no content or no parts, both falsy in the loop's condition). -/
structure AgentEvent where
  author : Option String
  isFinal : Bool
  contentParts : List String

def plannerAgentName : String := "EAAssignmentPlanner"

/-- Python `event.author or "System"`: falsy author becomes `"System"`. -/
def pyAuthorName (a : Option String) : String :=
  match a with
  | some s => if s = "" then "System" else s
  | none => "System"

/-- The planner event loop: scan events in order, return the stripped first
content part of the first final event authored by the planner agent that has
content parts; `none` when the stream ends without one. -/
def findFinalResponse : List AgentEvent → Option String
  | [] => none
  | e :: rest =>
    match e.contentParts with
    | p :: _ =>
      if e.isFinal = true ∧ pyAuthorName e.author = plannerAgentName then
        some (pyStrip p)
      else findFinalResponse rest
    | [] => findFinalResponse rest

/-- `[line.strip() for line in text.split('\n') if line.strip()]`. -/
def stripLines (text : String) : List String :=
  ((pySplitNl text).map pyStrip).filter (fun l => pyTruthyStr l)

/-- One iteration of the cleanup loop: strip a leading `"- "` marker. -/
def cleanLine (l : String) : String :=
  if pyStartsWith l "- " then pyStrip (pyDrop l 2) else l

/-- The `cleaned_lines` list of the source. -/
def cleanedLines (text : String) : List String :=
  (stripLines text).map cleanLine

/-- `plan_dict`: the four positional keys, each possibly absent (`None`). -/
structure PlanDict where
  ask_availability : Option String
  ask_total_effort : Option String
  ask_past_involvement : Option String
  ask_timezone : Option String
deriving DecidableEq, Repr

/-- `dict.fromkeys(keys)`: every key present, mapped to `None`. -/
def emptyPlan : PlanDict := ⟨none, none, none, none⟩

/-- The `keys` list of the source, in order. -/
def planKeys : List String :=
  ["ask_availability", "ask_total_effort", "ask_past_involvement", "ask_timezone"]

/-- `plan_dict[k] = v` for `k` among the four fixed keys. -/
def setKey (d : PlanDict) (k : String) (v : String) : PlanDict :=
  if k = "ask_availability" then { d with ask_availability := some v }
  else if k = "ask_total_effort" then { d with ask_total_effort := some v }
  else if k = "ask_past_involvement" then { d with ask_past_involvement := some v }
  else if k = "ask_timezone" then { d with ask_timezone := some v }
  else d

/-- Python list indexing `xs[i]`, raising `IndexError` out of range. -/
def listIndex : List α → Nat → Except PyErr α
  | [], _ => .error .indexError
  | x :: _, 0 => .ok x
  | _ :: xs, n + 1 => listIndex xs n

/-- `for i, line in enumerate(cleaned_lines): if i < len(keys): plan_dict[keys[i]] = line`. -/
def assignLines : List (Nat × String) → PlanDict → Except PyErr PlanDict
  | [], d => .ok d
  | (i, line) :: rest, d =>
    if i < planKeys.length then
      match listIndex planKeys i with
      | .ok k => assignLines rest (setKey d k line)
      | .error e => .error e
    else assignLines rest d

/-- The parsing step of the planner reply, with Python indexing modelled. -/
def parsePlanE (text : String) : Except PyErr PlanDict :=
  assignLines (cleanedLines text).enum emptyPlan

/-- Positional characterization: field `i` is the `i`-th cleaned line, absent
when fewer lines were produced. -/
def planFromLines (cl : List String) : PlanDict :=
  { ask_availability := cl.get? 0
    ask_total_effort := cl.get? 1
    ask_past_involvement := cl.get? 2
    ask_timezone := cl.get? 3 }

/-! ## Fan-out dispatcher: request construction (lines 294-360) -/

/-- The `api_base_url` constant of the source. -/
def apiBaseUrl : String :=
  "https://us-central1-dialogflow.googleapis.com/v3/projects/test-project-26133-466015/locations/us-central1/agents/4812b694-5a2a-4b40-8736-8224627b7e80"

/-- The `quota_project_id` constant of the source. -/
def quotaProjectId : String := "test-project-26133-466015"

/-- The `headers` dict built after the token fetch. -/
def mkHeaders (accessToken : String) : List (String × String) :=
  [("Authorization", "Bearer " ++ accessToken),
   ("Content-Type", "application/json"),
   ("x-goog-user-project", quotaProjectId)]

/-- The `json_payload` sent to `detectIntent` for one sub-question. -/
def detectIntentPayload (q : String) : Json :=
  .obj [("queryInput", .obj [("text", .obj [("text", .str q)]),
                             ("languageCode", .str "en")]),
        ("queryParams", .obj [("timeZone", .str "America/Chicago")])]

/-- One HTTP request as issued by `client.post` (the client carries the
headers and the 90-second timeout for every request). -/
structure Request where
  method : String
  url : String
  headers : List (String × String)
  body : Json
  timeoutSeconds : Nat

/-- One dispatched backend task: its name, question, fresh session id, and
the request it posts. -/
structure DispatchedTask where
  name : String
  question : String
  sessionId : String
  req : Request

/-- The `queries_to_run` dict, in insertion order. -/
def queriesToRun (plan : PlanDict) : List (String × Option String) :=
  [("availability", plan.ask_availability),
   ("past_involvement", plan.ask_past_involvement),
   ("timezone_match", plan.ask_timezone)]

/-- Python truthiness of an optional string (`None` and `""` are falsy). -/
def truthyS : Option String → Bool
  | some s => pyTruthyStr s
  | none => false

/-- The entries of `queries_to_run` that pass the `if q:` truthiness guard,
in iteration order. -/
def dispatchPairs (plan : PlanDict) : List (String × String) :=
  (queriesToRun plan).filterMap
    (fun p => match p.2 with
      | some s => if pyTruthyStr s then some (p.1, s) else none
      | none => none)

/-- One dispatched task: the fresh session id and the POST issued through the
shared client (bearer headers, 90-second timeout). -/
def mkTask (accessToken : String) (sid : String) (nq : String × String) :
    DispatchedTask :=
  { name := nq.1
    question := nq.2
    sessionId := sid
    req :=
      { method := "POST"
        url := apiBaseUrl ++ "/sessions/" ++ sid ++ ":detectIntent"
        headers := mkHeaders accessToken
        body := detectIntentPayload nq.2
        timeoutSeconds := 90 } }

/-- The dispatch loop: for each truthy entry of `queries_to_run`, in order,
draw the next fresh session id from the generator and build the POST task. -/
def buildTasks (plan : PlanDict) (uuidGen : Nat → String) (accessToken : String) :
    List DispatchedTask :=
  (dispatchPairs plan).enum.map (fun iq => mkTask accessToken (uuidGen iq.1) iq.2)

/-! ## Response classification and answer extraction (lines 362-408) -/

/-- The settled outcome of one backend call, as seen after
`asyncio.gather(..., return_exceptions=True)`: either a transport exception
or an HTTP response with a status, a body text, and the result of decoding
the body as JSON (`none` models a `json.JSONDecodeError`). -/
inductive CallOutcome where
  | exn (msg : String)
  | resp (status : Nat) (body : String) (decoded : Option Json)

/-- httpx `response.is_success`: `raise_for_status` raises for anything else. -/
def is2xx (status : Nat) : Bool := 200 ≤ status && status < 300

/-- Classification of one outcome: `some json` exactly when the call is a
success (no exception, 2xx status, body decodes as JSON). -/
def successJson : CallOutcome → Option Json
  | .exn _ => none
  | .resp status _ decoded => if is2xx status then decoded else none

/-- The failure message appended for a failing outcome (exception, HTTP
status error, or JSON decode error), as formatted by the source. -/
def failureMessage (name : String) : CallOutcome → String
  | .exn msg => "  - Task '" ++ name ++ "' failed with exception: " ++ msg
  | .resp status body _ =>
    if is2xx status then
      "  - Task '" ++ name ++ "' failed with JSON Decode Error. Response: " ++ body
    else
      "  - Task '" ++ name ++ "' failed with HTTP status " ++ toString status ++ ": " ++ body

/-- The classification loop over all settled outcomes: build `success_results`
(in response order) and `failures` (one message per failing outcome, in
response order). -/
def classifyAll : List (String × CallOutcome) → List (String × Json) × List String
  | [] => ([], [])
  | (n, o) :: rest =>
    let r := classifyAll rest
    match successJson o with
    | some j => ((n, j) :: r.1, r.2)
    | none => (r.1, failureMessage n o :: r.2)

/-- The chained `.get`/`[0]` expression reaching
`queryResult.responseMessages[0].text.text[0]`, with the source's defaults. -/
def extractAnswerText (j : Json) : Except PyErr Json := do
  let qr ← pyGet j "queryResult" (.obj [])
  let rms ← pyGet qr "responseMessages" (.arr [.obj []])
  let rm0 ← pyIndex0 rms
  let t ← pyGet rm0 "text" (.obj [])
  let tt ← pyGet t "text" (.arr [.str ""])
  pyIndex0 tt

/-- `answer_text.strip() if answer_text else "No answer text found in response."`. -/
def finalizeAnswer (a : Json) : Except PyErr String :=
  if pyTruthy a then
    match a with
    | .str s => .ok (pyStrip s)
    | _ => .error .attributeError
  else .ok "No answer text found in response."

/-- Answer extraction for one successful response. -/
def extractAnswer (j : Json) : Except PyErr String :=
  extractAnswerText j >>= finalizeAnswer

/-- The extraction loop over `success_results`; any raised exception escapes
the per-response classification and propagates to the blanket handler. -/
def extractAll : List (String × Json) → Except PyErr (List (String × String))
  | [] => .ok []
  | (n, j) :: rest => do
    let a ← extractAnswer j
    let r ← extractAll rest
    pure ((n, a) :: r)

/-! ## Effort update stage and pipeline controller (lines 232-450) -/

/-- The `update_effort_query` f-string: effort-delta instruction, a blank
line, the availability text, and a trailing newline. -/
def effortPrompt (effort avail : String) : String :=
  effort ++ "\n\n" ++ avail ++ "\n"

/-- `extracted_answers.get(key)`: first binding of the key, `None` if absent. -/
def lookupAnswer : List (String × String) → String → Option String
  | [], _ => none
  | (k, v) :: rest, key => if k = key then some v else lookupAnswer rest key

/-- The guard `if ask_total_effort_str and availability_result_str`: the
effort stage runs exactly when both are present and non-empty, and then
receives that pair. -/
def effortDecision (plan : PlanDict) (answers : List (String × String)) :
    Option (String × String) :=
  match plan.ask_total_effort, lookupAnswer answers "availability" with
  | some e, some a => if pyTruthyStr e && pyTruthyStr a then some (e, a) else none
  | _, _ => none

/-- The generative agents this program ever invokes through a runner. -/
inductive GenAgent where
  | planner
  | effortUpdate
deriving DecidableEq, Repr

/-- How one run of `call_ea_team_info_agent` ends. -/
inductive Outcome where
  | noPlannerResponse
  | parseError (e : PyErr)
  | tokenFailure
  | noQuestions (plan : PlanDict)
  | fanOutAborted (failures : List String)
  | extractionError (e : PyErr)
  | completed (plan : PlanDict) (answers : List (String × String))
      (effort : Option (Option String))
deriving DecidableEq, Repr

/-- Observable result of one run: the generative-agent invocations (agent and
user-turn text, in order), the backend requests actually issued, how the run
ended, and the Python function's return value (it has no return statement). -/
structure RunResult where
  agentCalls : List (GenAgent × String)
  backendCalls : List DispatchedTask
  outcome : Outcome
  returnValue : Option String

/-- The environment one run interacts with: the planner agent's event stream,
the access token obtained from the refreshed credential (`none` models a
falsy `credentials.token`), the fresh-uuid source, the settled outcome of
each named backend task, and the effort agent's final response. -/
structure World where
  plannerEvents : List AgentEvent
  token : Option String
  uuidGen : Nat → String
  backendOutcome : String → CallOutcome
  effortResponse : Option String

/-- Steps 6 of the source: run the effort agent when both inputs are truthy,
otherwise skip silently. -/
def effortPhase (query : String) (w : World) (plan : PlanDict)
    (tasks : List DispatchedTask) (answers : List (String × String)) : RunResult :=
  match effortDecision plan answers with
  | some ea =>
    { agentCalls := [(.planner, query), (.effortUpdate, effortPrompt ea.1 ea.2)]
      backendCalls := tasks
      outcome := .completed plan answers (some w.effortResponse)
      returnValue := none }
  | none =>
    { agentCalls := [(.planner, query)]
      backendCalls := tasks
      outcome := .completed plan answers none
      returnValue := none }

/-- The join-all barrier: `asyncio.gather` returns one settled outcome per
dispatched task, in task order, exceptions included. -/
def gatherOutcomes (w : World) (tasks : List DispatchedTask) :
    List (String × CallOutcome) :=
  tasks.map (fun t => (t.name, w.backendOutcome t.name))

/-- Steps 2-6 of the source: build the tasks, gather all outcomes, classify
them all, abort on any failure, extract the answers, then the effort stage. -/
def dispatchPhase (query : String) (w : World) (plan : PlanDict) (tok : String) :
    RunResult :=
  if (buildTasks plan w.uuidGen tok).isEmpty then
    { agentCalls := [(.planner, query)], backendCalls := []
      outcome := .noQuestions plan, returnValue := none }
  else if (classifyAll (gatherOutcomes w (buildTasks plan w.uuidGen tok))).2.isEmpty then
    match extractAll (classifyAll (gatherOutcomes w (buildTasks plan w.uuidGen tok))).1 with
    | .error e =>
      { agentCalls := [(.planner, query)]
        backendCalls := buildTasks plan w.uuidGen tok
        outcome := .extractionError e, returnValue := none }
    | .ok answers => effortPhase query w plan (buildTasks plan w.uuidGen tok) answers
  else
    { agentCalls := [(.planner, query)]
      backendCalls := buildTasks plan w.uuidGen tok
      outcome := .fanOutAborted (classifyAll (gatherOutcomes w (buildTasks plan w.uuidGen tok))).2
      returnValue := none }

/-- After the planner produced a plan: fetch the token (a falsy token raises
before any backend call) and dispatch. -/
def afterPlanner (query : String) (w : World) (plan : PlanDict) : RunResult :=
  match w.token with
  | some tok =>
    if pyTruthyStr tok = false then
      { agentCalls := [(.planner, query)], backendCalls := []
        outcome := .tokenFailure, returnValue := none }
    else dispatchPhase query w plan tok
  | none =>
    { agentCalls := [(.planner, query)], backendCalls := []
      outcome := .tokenFailure, returnValue := none }

/-- One run of `call_ea_team_info_agent`: invoke the planner, consume its
event stream, parse the reply, then dispatch; every failure path halts with
no later stage executed and the function returns `None`. -/
def runPipeline (query : String) (w : World) : RunResult :=
  match findFinalResponse w.plannerEvents with
  | none =>
    { agentCalls := [(.planner, query)], backendCalls := []
      outcome := .noPlannerResponse, returnValue := none }
  | some txt =>
    match parsePlanE txt with
    | .error e =>
      { agentCalls := [(.planner, query)], backendCalls := []
        outcome := .parseError e, returnValue := none }
    | .ok plan => afterPlanner query w plan

/-- The fixed example staffing request of the process entry point. -/
def initialTriggerQuery : String :=
  "I have an opportunity with motorola for 8h/w for 3 weeks in the central timezone. Who are the best EA candidate for assignment?"

/-! ## Concrete environments used to evaluate the pipeline on closed inputs -/

/-- A backend body with the expected shape, carrying answer text `s` at
`queryResult.responseMessages[0].text.text[0]`. -/
def goodBody (s : String) : Json :=
  .obj [("queryResult",
    .obj [("responseMessages",
      .arr [.obj [("text", .obj [("text", .arr [.str s])])]])])]

/-- A final planner event carrying reply text `txt`. -/
def plannerOkEvent (txt : String) : AgentEvent :=
  ⟨some plannerAgentName, true, [txt]⟩

/-- A four-line planner reply in the repository's documented format. -/
def planText4 : String :=
  "- 1) What are the detailed information for the 5 least busy members of the team over the next 3 weeks?\n- 2) Add 8 hours per week to the assignments for each week of each team member\n- 3) Who from the team already worked for motorola over the past 2 years, if anyone?\n- 4) Who lives within 1 hour of the central timezone?"

/-- A deterministic stand-in for the per-call `uuid.uuid4()` draws. -/
def uuidSeq (n : Nat) : String := "uuid-" ++ toString n

/-- Discriminator: did the run end in the `completed` outcome? -/
def isCompleted : Outcome → Bool
  | .completed _ _ _ => true
  | _ => false

/-- The extracted answers a run completed with (empty unless completed). -/
def runAnswers (r : RunResult) : List (String × String) :=
  match r.outcome with
  | .completed _ a _ => a
  | _ => []

/-- Fully successful environment: planner replies with four lines, a token is
obtained, every backend call returns 2xx with a well-shaped body, and the
effort agent responds. -/
def wC1 : World :=
  { plannerEvents := [plannerOkEvent planText4]
    token := some "tok-c1"
    uuidGen := uuidSeq
    backendOutcome := fun _ => .resp 200 "ok" (some (goodBody "Some schedule answer"))
    effortResponse := some "Updated schedule text" }

/-- A plan with three present sub-questions, used to drive the dispatcher. -/
def planC2 : PlanDict := ⟨some "qa", some "qe", some "qp", some "qt"⟩

/-- Environment in which two of three backend calls fail (HTTP 500 and a
transport exception) while the third succeeds. -/
def wC2 : World :=
  { plannerEvents := []
    token := some "tok-c2"
    uuidGen := uuidSeq
    backendOutcome := fun n =>
      if n = "availability" then .resp 500 "Internal Server Error" none
      else if n = "past_involvement" then .exn "ConnectError: connection refused"
      else .resp 200 "ok" (some (goodBody "tz ans"))
    effortResponse := none }

/-- Environment whose availability call returns 2xx with valid JSON that is
missing every expected key (the decoded body is the empty object). -/
def wC5 : World :=
  { plannerEvents := [plannerOkEvent planText4]
    token := some "tok-c5"
    uuidGen := uuidSeq
    backendOutcome := fun n =>
      if n = "availability" then .resp 200 "{}" (some (.obj []))
      else .resp 200 "ok" (some (goodBody "ans"))
    effortResponse := some "eff" }

/-- Environment whose planner event stream ends without a final authored
response. -/
def wC8 : World :=
  { plannerEvents := [⟨some plannerAgentName, false, ["thinking"]⟩,
                      ⟨some "OtherAgent", true, ["x"]⟩]
    token := some "tok-c8"
    uuidGen := uuidSeq
    backendOutcome := fun _ => .resp 200 "ok" (some (goodBody "ans"))
    effortResponse := none }

/-- Environment in which no access token is obtained. -/
def wC9 : World :=
  { plannerEvents := [plannerOkEvent planText4]
    token := none
    uuidGen := uuidSeq
    backendOutcome := fun _ => .resp 200 "ok" (some (goodBody "ans"))
    effortResponse := none }

/-- Environment whose availability call returns 2xx valid JSON in which
`queryResult.responseMessages` is present but an empty list. -/
def wC10 : World :=
  { plannerEvents := [plannerOkEvent planText4]
    token := some "tok-c10"
    uuidGen := uuidSeq
    backendOutcome := fun n =>
      if n = "availability" then
        .resp 200 "empty" (some (.obj [("queryResult", .obj [("responseMessages", .arr [])])]))
      else .resp 200 "ok" (some (goodBody "ans"))
    effortResponse := some "eff" }

/-! ## Helper lemmas -/

/-- Assignment iterations with index at least four leave the dict unchanged. -/
theorem assignLines_of_ge (rest : List String) (n : Nat) (d : PlanDict)
    (h : 4 ≤ n) : assignLines (List.enumFrom n rest) d = .ok d := by
  induction rest generalizing n d with
  | nil => rfl
  | cons x xs ih =>
    have hn : ¬ n < planKeys.length := by
      simp only [planKeys, List.length]
      omega
    show assignLines ((n, x) :: List.enumFrom (n + 1) xs) d = .ok d
    simp only [assignLines, hn, if_false]
    exact ih (n + 1) d (by omega)

/-- The parsing step never raises and assigns the first four cleaned lines
positionally, leaving later keys absent. -/
theorem parsePlanE_eq (text : String) :
    parsePlanE text = .ok (planFromLines (cleanedLines text)) := by
  unfold parsePlanE planFromLines
  rcases h : cleanedLines text with _ | ⟨a, _ | ⟨b, _ | ⟨c, _ | ⟨d, rest⟩⟩⟩⟩
  · rfl
  · rfl
  · rfl
  · rfl
  · show assignLines (List.enumFrom 4 rest) ⟨some a, some b, some c, some d⟩ =
      .ok ⟨some a, some b, some c, some d⟩
    exact assignLines_of_ge rest 4 _ (by omega)

/-- All `failures` messages, in outcome order: one per failing outcome. -/
theorem classifyAll_snd (outs : List (String × CallOutcome)) :
    (classifyAll outs).2 =
      (outs.filter (fun p => (successJson p.2).isNone)).map
        (fun p => failureMessage p.1 p.2) := by
  induction outs with
  | nil => rfl
  | cons p rest ih =>
    rcases p with ⟨n, o⟩
    simp only [classifyAll]
    cases h : successJson o <;> simp [h, ih, List.filter_cons]

/-- The `success_results` entries, in outcome order: one per success. -/
theorem classifyAll_fst (outs : List (String × CallOutcome)) :
    (classifyAll outs).1 =
      outs.filterMap (fun p => (successJson p.2).map (fun j => (p.1, j))) := by
  induction outs with
  | nil => rfl
  | cons p rest ih =>
    rcases p with ⟨n, o⟩
    simp only [classifyAll]
    cases h : successJson o <;> simp [h, ih, List.filterMap_cons]

/-- Every settled outcome is classified: successes and failures partition
the batch. -/
theorem classifyAll_length (outs : List (String × CallOutcome)) :
    (classifyAll outs).1.length + (classifyAll outs).2.length = outs.length := by
  induction outs with
  | nil => rfl
  | cons p rest ih =>
    rcases p with ⟨n, o⟩
    simp only [classifyAll]
    cases h : successJson o <;> simp [h] <;> omega

/-- Any effort-phase result returns `None` and invokes the planner, then at
most the effort agent. -/
theorem effortPhase_shape (q : String) (w : World) (plan : PlanDict)
    (tasks : List DispatchedTask) (answers : List (String × String)) :
    (effortPhase q w plan tasks answers).returnValue = none ∧
    ((effortPhase q w plan tasks answers).agentCalls.map Prod.fst =
        [GenAgent.planner] ∨
      (effortPhase q w plan tasks answers).agentCalls.map Prod.fst =
        [GenAgent.planner, GenAgent.effortUpdate]) := by
  unfold effortPhase
  cases effortDecision plan answers <;> simp

/-- Any dispatch-phase result returns `None` and invokes the planner, then at
most the effort agent. -/
theorem dispatchPhase_shape (q : String) (w : World) (plan : PlanDict)
    (tok : String) :
    (dispatchPhase q w plan tok).returnValue = none ∧
    ((dispatchPhase q w plan tok).agentCalls.map Prod.fst = [GenAgent.planner] ∨
      (dispatchPhase q w plan tok).agentCalls.map Prod.fst =
        [GenAgent.planner, GenAgent.effortUpdate]) := by
  unfold dispatchPhase
  by_cases h1 : (buildTasks plan w.uuidGen tok).isEmpty = true
  · simp [h1]
  · by_cases h2 :
      (classifyAll (gatherOutcomes w (buildTasks plan w.uuidGen tok))).2.isEmpty = true
    · simp only [h1, h2, if_true, if_false]
      cases extractAll
          (classifyAll (gatherOutcomes w (buildTasks plan w.uuidGen tok))).1 with
      | error e => simp
      | ok answers => exact effortPhase_shape q w plan _ answers
    · simp [h1, h2]

/-- Task names after indexing and task construction are the pair names. -/
theorem enumFrom_mkTask_names (tok : String) (g : Nat → String)
    (pairs : List (String × String)) (k : Nat) :
    ((List.enumFrom k pairs).map (fun iq => mkTask tok (g iq.1) iq.2)).map
        (fun t => t.name) = pairs.map Prod.fst := by
  induction pairs generalizing k with
  | nil => rfl
  | cons p rest ih =>
    show (mkTask tok (g k) p).name ::
        ((List.enumFrom (k + 1) rest).map (fun iq => mkTask tok (g iq.1) iq.2)).map
          (fun t => t.name) = p.1 :: rest.map Prod.fst
    rw [ih (k + 1)]
    rfl

/-- The truthiness filter keeps exactly the present, non-empty entries. -/
theorem filterTruthy_names (L : List (String × Option String)) :
    (L.filterMap (fun p => match p.2 with
        | some s => if pyTruthyStr s then some (p.1, s) else none
        | none => none)).map Prod.fst =
      (L.filter (fun p => truthyS p.2)).map Prod.fst := by
  induction L with
  | nil => rfl
  | cons p rest ih =>
    rcases p with ⟨n, q⟩
    cases q with
    | none => simpa [List.filterMap_cons, List.filter_cons, truthyS] using ih
    | some s =>
      by_cases h : pyTruthyStr s = true <;>
        simp [List.filterMap_cons, List.filter_cons, truthyS, h, ih]

/-- The `i`-th dispatched task draws the `i`-th fresh identifier (counting
from the enumeration base). -/
theorem enumFrom_mkTask_sessionId (tok : String) (g : Nat → String)
    (pairs : List (String × String)) (k i : Nat) (t : DispatchedTask)
    (h : ((List.enumFrom k pairs).map
        (fun iq => mkTask tok (g iq.1) iq.2)).get? i = some t) :
    t.sessionId = g (k + i) := by
  induction pairs generalizing k i with
  | nil => simp [List.enumFrom] at h
  | cons p rest ih =>
    cases i with
    | zero =>
      have ht : mkTask tok (g k) p = t := by
        simpa [List.enumFrom] using h
      rw [← ht]
      rfl
    | succ j =>
      have h' : ((List.enumFrom (k + 1) rest).map
          (fun iq => mkTask tok (g iq.1) iq.2)).get? j = some t := by
        simpa [List.enumFrom] using h
      have := ih (k + 1) j h'
      rwa [show k + 1 + j = k + (j + 1) by omega] at this

/-- Every element of `buildTasks` is a task built by `mkTask` from its own
session id and question. -/
theorem buildTasks_get (plan : PlanDict) (g : Nat → String) (tok : String)
    (i : Nat) (t : DispatchedTask)
    (h : (buildTasks plan g tok).get? i = some t) :
    t.req = { method := "POST"
              url := apiBaseUrl ++ "/sessions/" ++ t.sessionId ++ ":detectIntent"
              headers := mkHeaders tok
              body := detectIntentPayload t.question
              timeoutSeconds := 90 } := by
  unfold buildTasks at h
  rw [List.get?_map] at h
  cases he : (dispatchPairs plan).enum.get? i with
  | none => rw [he] at h; simp at h
  | some iq =>
    rw [he] at h
    simp only [Option.map_some'] at h
    rw [← Option.some_inj.mp h]
    rfl

/-! ## Claim theorems -/

/-- Claim C3: for every free-text planner reply, parsing splits the reply into
its non-empty stripped lines, removes a leading `"- "` marker where present
(`cleanedLines`), and assigns the first four resulting lines positionally to
the four fixed keys; with fewer than four lines the trailing keys remain
absent, and the Python-indexing model never raises for any number of lines. -/
theorem claim_C3 (text : String) :
    parsePlanE text = .ok (planFromLines (cleanedLines text)) :=
  parsePlanE_eq text

/-- Claim C1 counterexample: in a fully successful environment (four-line
planner reply, token obtained, all backend calls 2xx with well-shaped bodies,
effort agent responds) the run completes, yet the only generative agents ever
invoked are the planner and the effort-update agent — there is no third,
recommendation-stage agent — and the function returns nothing to the caller. -/
theorem claim_C1_cex :
    isCompleted (runPipeline initialTriggerQuery wC1).outcome = true ∧
    (runPipeline initialTriggerQuery wC1).agentCalls.map Prod.fst =
      [GenAgent.planner, GenAgent.effortUpdate] ∧
    (runPipeline initialTriggerQuery wC1).returnValue = none :=
  ⟨rfl, rfl, rfl⟩

/-- Claim C1 (amended): after the Effort Update Stage completes or is
skipped, the pipeline terminates; no Recommendation Stage exists, every run
invokes only the planner and possibly the effort-update agent, and no
RecommendationText (or anything else) is returned to the caller. -/
theorem claim_C1 (q : String) (w : World) :
    (runPipeline q w).returnValue = none ∧
    ((runPipeline q w).agentCalls.map Prod.fst = [GenAgent.planner] ∨
      (runPipeline q w).agentCalls.map Prod.fst =
        [GenAgent.planner, GenAgent.effortUpdate]) := by
  unfold runPipeline
  cases hf : findFinalResponse w.plannerEvents with
  | none => simp
  | some txt =>
    cases hp : parsePlanE txt with
    | error e => simp [hp]
    | ok plan =>
      simp only [hp]
      unfold afterPlanner
      cases ht : w.token with
      | none => simp [ht]
      | some tok =>
        simp only [ht]
        by_cases htr : pyTruthyStr tok = false
        · simp [htr]
        · rw [if_neg htr]
          exact dispatchPhase_shape q w plan tok

/-- Claim C8: if the planner's event stream ends without a final authored
response (first conjunct characterizes exactly when that happens), the run
halts in the no-response outcome: the planner was invoked once and nothing
else ran — no parsing result is used, no backend call is issued, and no later
stage executes. -/
theorem claim_C8 :
    (∀ events : List AgentEvent,
      findFinalResponse events = none ↔
        ∀ e ∈ events, e.contentParts = [] ∨
          ¬(e.isFinal = true ∧ pyAuthorName e.author = plannerAgentName)) ∧
    (∀ (q : String) (w : World), findFinalResponse w.plannerEvents = none →
      runPipeline q w =
        { agentCalls := [(.planner, q)], backendCalls := []
          outcome := .noPlannerResponse, returnValue := none }) := by
  constructor
  · intro events
    induction events with
    | nil => simp [findFinalResponse]
    | cons e rest ih =>
      cases hc : e.contentParts with
      | nil => simp [findFinalResponse, hc, ih]
      | cons p ps =>
        by_cases hfin : e.isFinal = true ∧ pyAuthorName e.author = plannerAgentName
        · simp [findFinalResponse, hc, hfin]
        · have hstep : findFinalResponse (e :: rest) = findFinalResponse rest := by
            simp [findFinalResponse, hc, hfin]
          rw [hstep, ih]
          constructor
          · intro hr x hx
            rcases List.mem_cons.mp hx with hx1 | hx2
            · subst hx1
              exact Or.inr hfin
            · exact hr x hx2
          · intro hall x hx
            exact hall x (List.mem_cons_of_mem e hx)
  · intro q w h
    unfold runPipeline
    rw [h]

/-- Claim C8 witness: a stream with a non-final planner event and a final
event from another author yields no response, and the pipeline halts. -/
theorem claim_C8_witness :
    runPipeline "q8" wC8 =
      { agentCalls := [(.planner, "q8")], backendCalls := []
        outcome := .noPlannerResponse, returnValue := none } :=
  claim_C8.2 "q8" wC8 rfl

/-- Claim C9: the access token is obtained before the batch (a run that
issued any backend call had a truthy token — first conjunct), and when no
token is obtained the whole dispatch step is fatal: no backend call is
issued, the run aborts with the token failure, and nothing after the planner
runs. -/
theorem claim_C9 :
    (∀ (q : String) (w : World), (runPipeline q w).backendCalls ≠ [] →
      ∃ tok, w.token = some tok ∧ pyTruthyStr tok = true) ∧
    (∀ (q : String) (w : World) (txt : String),
      findFinalResponse w.plannerEvents = some txt →
      (w.token = none ∨ w.token = some "") →
      (runPipeline q w).backendCalls = [] ∧
      (runPipeline q w).outcome = .tokenFailure ∧
      (runPipeline q w).agentCalls = [(.planner, q)]) := by
  have key : ∀ (q : String) (w : World),
      (∃ tok, w.token = some tok ∧ pyTruthyStr tok = true) ∨
        (runPipeline q w).backendCalls = [] := by
    intro q w
    unfold runPipeline
    cases hf : findFinalResponse w.plannerEvents with
    | none => right; rfl
    | some txt =>
      cases hp : parsePlanE txt with
      | error e => right; simp [hp]
      | ok plan =>
        simp only [hp]
        unfold afterPlanner
        cases ht : w.token with
        | none => right; simp
        | some tok =>
          by_cases htr : pyTruthyStr tok = false
          · right; simp [htr]
          · left
            exact ⟨tok, rfl, by revert htr; cases pyTruthyStr tok <;> simp⟩
  constructor
  · intro q w h
    rcases key q w with hk | hk
    · exact hk
    · exact absurd hk h
  · intro q w txt hf ht
    unfold runPipeline
    simp only [hf, parsePlanE_eq txt]
    unfold afterPlanner
    have he : pyTruthyStr "" = false := rfl
    rcases ht with h | h <;> simp [h, he]

/-- Claim C9 witness: with a four-line planner reply but no token, the run
aborts with no backend call. -/
theorem claim_C9_witness :
    (runPipeline "q9" wC9).backendCalls = [] ∧
    (runPipeline "q9" wC9).outcome = .tokenFailure ∧
    (runPipeline "q9" wC9).agentCalls = [(.planner, "q9")] :=
  claim_C9.2 "q9" wC9 (pyStrip planText4) rfl (Or.inl rfl)

/-- Claim C2: every settled outcome is classified (successes and failures
partition the batch — the join-all barrier hands the classifier the whole
batch), the failures list carries one message per failing outcome in order,
each failure message names its sub-question, and when any outcome failed the
dispatcher aborts the whole pipeline with all those messages and the effort
stage never runs. -/
theorem claim_C2 :
    (∀ outs : List (String × CallOutcome),
      (classifyAll outs).1.length + (classifyAll outs).2.length = outs.length) ∧
    (∀ outs : List (String × CallOutcome),
      (classifyAll outs).2 =
        (outs.filter (fun p => (successJson p.2).isNone)).map
          (fun p => failureMessage p.1 p.2)) ∧
    (∀ (n : String) (o : CallOutcome),
      ∃ s, failureMessage n o = "  - Task '" ++ n ++ s) ∧
    (∀ (q : String) (w : World) (plan : PlanDict) (tok : String),
      (classifyAll (gatherOutcomes w (buildTasks plan w.uuidGen tok))).2 ≠ [] →
      dispatchPhase q w plan tok =
        { agentCalls := [(.planner, q)]
          backendCalls := buildTasks plan w.uuidGen tok
          outcome := .fanOutAborted
            (classifyAll (gatherOutcomes w (buildTasks plan w.uuidGen tok))).2
          returnValue := none }) := by
  refine ⟨classifyAll_length, classifyAll_snd, ?_, ?_⟩
  · intro n o
    cases o with
    | exn m => exact ⟨"' failed with exception: " ++ m, String.append_assoc _ _ _⟩
    | resp status body decoded =>
      by_cases h2 : is2xx status = true
      · refine ⟨"' failed with JSON Decode Error. Response: " ++ body, ?_⟩
        simp [failureMessage, h2, String.append_assoc]
      · refine ⟨"' failed with HTTP status " ++ (toString status ++ (": " ++ body)), ?_⟩
        simp [failureMessage, h2, String.append_assoc]
  · intro q w plan tok hfail
    have htasks : (buildTasks plan w.uuidGen tok).isEmpty = false := by
      cases hb : buildTasks plan w.uuidGen tok with
      | nil =>
        exfalso
        apply hfail
        rw [hb]
        rfl
      | cons t ts => rfl
    unfold dispatchPhase
    rw [htasks]
    simp only [Bool.false_eq_true, if_false]
    rw [if_neg (by simpa using hfail)]

/-- Claim C2 witness: with two of three backend calls failing, the dispatcher
aborts with the accumulated failure messages. -/
theorem claim_C2_witness :
    dispatchPhase "q2" wC2 planC2 "tok" =
      { agentCalls := [(.planner, "q2")]
        backendCalls := buildTasks planC2 wC2.uuidGen "tok"
        outcome := .fanOutAborted
          (classifyAll (gatherOutcomes wC2 (buildTasks planC2 wC2.uuidGen "tok"))).2
        returnValue := none } :=
  claim_C2.2.2.2 "q2" wC2 planC2 "tok" (by decide)

/-- A plan whose timezone sub-question is absent. -/
def planC4w : PlanDict := ⟨some "qa", some "qe", some "qp", none⟩

/-- Claim C4: the dispatcher issues exactly one backend call per present,
non-empty field among availability, past-involvement and timezone (in that
order); the effort-delta field never influences the dispatched calls; an
absent timezone field yields no timezone call; and the `i`-th dispatched call
draws the `i`-th fresh session identifier. -/
theorem claim_C4 (plan : PlanDict) (g : Nat → String) (tok : String) :
    ((buildTasks plan g tok).map (fun t => t.name) =
      ((queriesToRun plan).filter (fun p => truthyS p.2)).map Prod.fst) ∧
    (∀ x, buildTasks { plan with ask_total_effort := x } g tok =
      buildTasks plan g tok) ∧
    (plan.ask_timezone = none →
      ∀ t ∈ buildTasks plan g tok, t.name ≠ "timezone_match") ∧
    (∀ (i : Nat) (t : DispatchedTask),
      (buildTasks plan g tok).get? i = some t → t.sessionId = g i) := by
  have hnames : (buildTasks plan g tok).map (fun t => t.name) =
      ((queriesToRun plan).filter (fun p => truthyS p.2)).map Prod.fst := by
    have h1 : (buildTasks plan g tok).map (fun t => t.name) =
        (dispatchPairs plan).map Prod.fst :=
      enumFrom_mkTask_names tok g (dispatchPairs plan) 0
    rw [h1]
    exact filterTruthy_names _
  refine ⟨hnames, fun x => rfl, ?_, ?_⟩
  · intro hz t ht
    have hmem : t.name ∈
        ((queriesToRun plan).filter (fun p => truthyS p.2)).map Prod.fst := by
      rw [← hnames]
      exact List.mem_map_of_mem _ ht
    intro heq
    rw [heq] at hmem
    simp only [queriesToRun, hz] at hmem
    simp +decide [List.filter_cons, List.mem_filter, truthyS] at hmem
    rcases hmem with ⟨x, hx⟩
    repeat' split at hx
    all_goals simp_all
  · intro i t h
    have := enumFrom_mkTask_sessionId tok g (dispatchPairs plan) 0 i t h
    simpa using this

/-- Claim C4 witness: with the timezone field absent, only the availability
and past-involvement calls are dispatched, none named `timezone_match`, and
the first call draws the first fresh identifier. -/
theorem claim_C4_witness :
    ((buildTasks planC4w uuidSeq "tok").map (fun t => t.name) =
      ((queriesToRun planC4w).filter (fun p => truthyS p.2)).map Prod.fst) ∧
    (∀ t ∈ buildTasks planC4w uuidSeq "tok", t.name ≠ "timezone_match") ∧
    (mkTask "tok" (uuidSeq 0) ("availability", "qa")).sessionId = uuidSeq 0 :=
  ⟨(claim_C4 planC4w uuidSeq "tok").1,
   (claim_C4 planC4w uuidSeq "tok").2.2.1 rfl,
   (claim_C4 planC4w uuidSeq "tok").2.2.2 0
     (mkTask "tok" (uuidSeq 0) ("availability", "qa")) rfl⟩

/-- Claim C5 counterexample: a 2xx response whose body is valid JSON but has
none of the expected keys is classified as a success, not a failure; its
extraction yields the placeholder answer text, and a pipeline containing such
a response completes (the effort stage runs) instead of aborting — so a
missing JSON shape is not treated as a hard failure. -/
theorem claim_C5_cex :
    successJson (.resp 200 "{}" (some (.obj []))) = some (.obj []) ∧
    extractAnswer (.obj []) = .ok "No answer text found in response." ∧
    isCompleted (runPipeline "q5" wC5).outcome = true ∧
    lookupAnswer (runAnswers (runPipeline "q5" wC5)) "availability" =
      some "No answer text found in response." :=
  ⟨rfl, rfl, rfl, rfl⟩

/-- Claim C5 (amended): a non-2xx HTTP status and a body that fails JSON
decoding are both hard failures feeding the pipeline-wide abort, and only
2xx responses with a decodable body are classified as successes; extraction
reads `queryResult.responseMessages[0].text.text[0]` when the shape is as
expected, but a decodable body missing the expected keys is not a hard
failure: its extraction yields a fixed placeholder answer instead. -/
theorem claim_C5 :
    (∀ (status : Nat) (body : String) (decoded : Option Json),
      is2xx status = false → successJson (.resp status body decoded) = none) ∧
    (∀ (status : Nat) (body : String),
      is2xx status = true → successJson (.resp status body none) = none) ∧
    (∀ (status : Nat) (body : String) (j : Json),
      is2xx status = true → successJson (.resp status body (some j)) = some j) ∧
    (∀ m : String, successJson (.exn m) = none) ∧
    (∀ s : String, extractAnswer (goodBody s) =
      .ok (if pyTruthyStr s then pyStrip s
           else "No answer text found in response.")) ∧
    extractAnswer (.obj []) = .ok "No answer text found in response." := by
  refine ⟨?_, ?_, ?_, fun m => rfl, ?_, rfl⟩
  · intro st b d h
    simp [successJson, h]
  · intro st b h
    simp [successJson, h]
  · intro st b j h
    simp [successJson, h]
  · intro s
    show finalizeAnswer (Json.str s) = _
    unfold finalizeAnswer
    cases hts : pyTruthyStr s <;> simp [pyTruthy, hts]

/-- Claim C5 witness: a 500 status, a JSON decode failure, a 2xx decodable
body, and a well-shaped body with padded answer text, each classified and
extracted as the theorem states. -/
theorem claim_C5_witness :
    successJson (.resp 500 "Internal Server Error" (some .null)) = none ∧
    successJson (.resp 200 "garbage" none) = none ∧
    successJson (.resp 200 "ok" (some (goodBody "x"))) = some (goodBody "x") ∧
    extractAnswer (goodBody " padded ") =
      .ok (if pyTruthyStr " padded " then pyStrip " padded "
           else "No answer text found in response.") :=
  ⟨claim_C5.1 500 "Internal Server Error" (some .null) rfl,
   claim_C5.2.1 200 "garbage" rfl,
   claim_C5.2.2.1 200 "ok" (goodBody "x") rfl,
   claim_C5.2.2.2.2.1 " padded "⟩

/-- Claim C6: the effort stage runs exactly when both the effort-delta
instruction and the availability answer are present and non-empty; when it
runs, its prompt is the effort-delta instruction followed by the availability
text; when either is missing it is skipped without error and the extracted
answers (including the availability text) are passed through unmodified. -/
theorem claim_C6 :
    (∀ (plan : PlanDict) (answers : List (String × String)) (e a : String),
      effortDecision plan answers = some (e, a) ↔
        (plan.ask_total_effort = some e ∧
          lookupAnswer answers "availability" = some a ∧
          pyTruthyStr e = true ∧ pyTruthyStr a = true)) ∧
    (∀ (q : String) (w : World) (plan : PlanDict) (tasks : List DispatchedTask)
        (answers : List (String × String)) (e a : String),
      effortDecision plan answers = some (e, a) →
      effortPhase q w plan tasks answers =
        { agentCalls := [(.planner, q), (.effortUpdate, e ++ "\n\n" ++ a ++ "\n")]
          backendCalls := tasks
          outcome := .completed plan answers (some w.effortResponse)
          returnValue := none }) ∧
    (∀ (q : String) (w : World) (plan : PlanDict) (tasks : List DispatchedTask)
        (answers : List (String × String)),
      effortDecision plan answers = none →
      effortPhase q w plan tasks answers =
        { agentCalls := [(.planner, q)]
          backendCalls := tasks
          outcome := .completed plan answers none
          returnValue := none }) := by
  refine ⟨?_, ?_, ?_⟩
  · intro plan answers e a
    unfold effortDecision
    cases he : plan.ask_total_effort with
    | none => simp
    | some e0 =>
      cases ha : lookupAnswer answers "availability" with
      | none => simp
      | some a0 =>
        show (if (pyTruthyStr e0 && pyTruthyStr a0) = true then some (e0, a0)
              else none) = some (e, a) ↔
          (some e0 = some e ∧ some a0 = some a ∧
            pyTruthyStr e = true ∧ pyTruthyStr a = true)
        by_cases hte : pyTruthyStr e0 = true
        · by_cases hta : pyTruthyStr a0 = true
          · rw [if_pos (by simp [hte, hta])]
            constructor
            · intro h
              rw [Option.some_inj] at h
              rw [Prod.mk.injEq] at h
              obtain ⟨h1, h2⟩ := h
              subst h1
              subst h2
              exact ⟨rfl, rfl, hte, hta⟩
            · rintro ⟨h1, h2, h3, h4⟩
              rw [Option.some_inj] at h1 h2
              subst h1
              subst h2
              rfl
          · rw [if_neg (by simp [hta])]
            constructor
            · intro h
              exact absurd h (by simp)
            · rintro ⟨h1, h2, h3, h4⟩
              rw [Option.some_inj] at h2
              subst h2
              exact absurd h4 hta
        · rw [if_neg (by simp [hte])]
          constructor
          · intro h
            exact absurd h (by simp)
          · rintro ⟨h1, h2, h3, h4⟩
            rw [Option.some_inj] at h1
            subst h1
            exact absurd h3 hte
  · intro q w plan tasks answers e a h
    unfold effortPhase
    rw [h]
    rfl
  · intro q w plan tasks answers h
    unfold effortPhase
    rw [h]

/-- Claim C6 witness: with both inputs present the stage runs on their
concatenation; with no availability answer it is skipped unchanged. -/
theorem claim_C6_witness :
    (effortDecision planC2 [("availability", "sched")] = some ("qe", "sched") ↔
      (planC2.ask_total_effort = some "qe" ∧
        lookupAnswer [("availability", "sched")] "availability" = some "sched" ∧
        pyTruthyStr "qe" = true ∧ pyTruthyStr "sched" = true)) ∧
    effortPhase "q" wC1 planC2 [] [("availability", "sched")] =
      { agentCalls := [(.planner, "q"),
                       (.effortUpdate, "qe" ++ "\n\n" ++ "sched" ++ "\n")]
        backendCalls := []
        outcome := .completed planC2 [("availability", "sched")]
          (some wC1.effortResponse)
        returnValue := none } ∧
    effortPhase "q" wC1 planC2 [] [] =
      { agentCalls := [(.planner, "q")], backendCalls := []
        outcome := .completed planC2 [] none, returnValue := none } :=
  ⟨claim_C6.1 planC2 [("availability", "sched")] "qe" "sched",
   claim_C6.2.1 "q" wC1 planC2 [] [("availability", "sched")] "qe" "sched" rfl,
   claim_C6.2.2 "q" wC1 planC2 [] [] rfl⟩

/-- Claim C7: every dispatched backend call is a POST to
`{base_url}/sessions/{session_id}:detectIntent` whose body is exactly the
`queryInput`/`queryParams` object with the fixed `"America/Chicago"`
timezone, carrying the bearer token header, with a 90-second timeout. -/
theorem claim_C7 (plan : PlanDict) (g : Nat → String) (tok : String)
    (i : Nat) (t : DispatchedTask)
    (h : (buildTasks plan g tok).get? i = some t) :
    t.req.method = "POST" ∧
    t.req.url = apiBaseUrl ++ "/sessions/" ++ t.sessionId ++ ":detectIntent" ∧
    t.req.body = Json.obj
      [("queryInput", Json.obj [("text", Json.obj [("text", Json.str t.question)]),
                                ("languageCode", Json.str "en")]),
       ("queryParams", Json.obj [("timeZone", Json.str "America/Chicago")])] ∧
    t.req.headers = [("Authorization", "Bearer " ++ tok),
                     ("Content-Type", "application/json"),
                     ("x-goog-user-project", quotaProjectId)] ∧
    t.req.timeoutSeconds = 90 := by
  rw [buildTasks_get plan g tok i t h]
  exact ⟨rfl, rfl, rfl, rfl, rfl⟩

/-- Claim C7 witness: the first dispatched call of a three-question plan has
exactly the documented request shape. -/
theorem claim_C7_witness :
    (mkTask "tok" (uuidSeq 0) ("availability", "qa")).req.method = "POST" ∧
    (mkTask "tok" (uuidSeq 0) ("availability", "qa")).req.url =
      apiBaseUrl ++ "/sessions/" ++
        (mkTask "tok" (uuidSeq 0) ("availability", "qa")).sessionId ++
        ":detectIntent" ∧
    (mkTask "tok" (uuidSeq 0) ("availability", "qa")).req.body = Json.obj
      [("queryInput", Json.obj
        [("text", Json.obj
          [("text", Json.str (mkTask "tok" (uuidSeq 0) ("availability", "qa")).question)]),
         ("languageCode", Json.str "en")]),
       ("queryParams", Json.obj [("timeZone", Json.str "America/Chicago")])] ∧
    (mkTask "tok" (uuidSeq 0) ("availability", "qa")).req.headers =
      [("Authorization", "Bearer " ++ "tok"),
       ("Content-Type", "application/json"),
       ("x-goog-user-project", quotaProjectId)] ∧
    (mkTask "tok" (uuidSeq 0) ("availability", "qa")).req.timeoutSeconds = 90 :=
  claim_C7 planC2 uuidSeq "tok" 0
    (mkTask "tok" (uuidSeq 0) ("availability", "qa")) rfl

/-- Claim C10: for a 2xx valid-JSON response in which `responseMessages` (or
the inner `text.text`) is present but an empty list, classification counts
the response a success, yet extraction raises `IndexError` (the `.get`
defaults only cover absent keys, as the empty-object conjunct shows); the
error escapes the per-response classification, is caught by the blanket
handler, and the run aborts with no effort stage. -/
theorem claim_C10 :
    successJson (.resp 200 "empty"
        (some (.obj [("queryResult", .obj [("responseMessages", .arr [])])]))) =
      some (.obj [("queryResult", .obj [("responseMessages", .arr [])])]) ∧
    extractAnswer (.obj [("queryResult", .obj [("responseMessages", .arr [])])]) =
      .error .indexError ∧
    extractAnswer (.obj [("queryResult", .obj [("responseMessages",
        .arr [.obj [("text", .obj [("text", .arr [])])]])])]) =
      .error .indexError ∧
    extractAnswer (.obj []) = .ok "No answer text found in response." ∧
    (runPipeline "q10" wC10).outcome = .extractionError .indexError ∧
    (runPipeline "q10" wC10).agentCalls = [(.planner, "q10")] :=
  ⟨rfl, rfl, rfl, rfl, rfl, rfl⟩

end EAAssign
